import Mathlib

/-!
Verification of `pythonic-fp-sentinels`: a shallow embedding of the two
singleton types of the repository — the keyed `Sentinel` factory
(`src/pythonic_fp/singletons/sentinel.py`) and the absorbing `Nada`
singleton (`src/pythonic_fp/singletons/nada.py`) — together with proofs
of the specified identity, absorption and error-handling properties.

Python objects that can appear as operands, indices or assigned values are
modelled by the inductive universe `PyVal`; singleton construction, which
mutates class-level state, is modelled by explicit state passing
(`NadaState`, `SentinelState`), with object identity represented by
allocation ids (`Nat`).
-/

set_option autoImplicit false

namespace PythonicFP

/-- A small universe of Python values: `None`, booleans, integers, strings,
tuples, iterables without `__len__` (such as generators, carrying the finite
list of elements they would yield), and the `Nada` singleton. -/
inductive PyVal where
  | none
  | bool (b : Bool)
  | int (n : Int)
  | str (s : String)
  | tuple (xs : List PyVal)
  | gen (xs : List PyVal)
  | nada

/-- An index argument to `__getitem__` / `__setitem__` / `__delitem__`:
either a plain integer index or a slice.  A Python `slice` has optional
`start`, `stop` and `step` components (each may be `None`). -/
inductive Index where
  | idx (i : Int)
  | slice (start stop step : Option Int)
deriving DecidableEq, Repr

/-- Python exceptions raised by the code under verification. -/
inductive PyErr where
  | typeError (msg : String)
  | valueError (msg : String)
  | zeroDivisionError
deriving DecidableEq, Repr

/-- The Python identity test `v is Nada()`: since `Nada` has exactly one
instance, a value is identical to the singleton exactly when it is the
singleton. -/
def PyVal.isNada : PyVal → Bool
  | .nada => true
  | _ => false

/-- Python `isinstance(v, collections.abc.Iterable)`: true for values defining
`__iter__` — strings, tuples, generators, and `Nada` itself (its class
defines `__iter__`). -/
def PyVal.isIterable : PyVal → Bool
  | .str _ => true
  | .tuple _ => true
  | .gen _ => true
  | .nada => true
  | _ => false

/-- Python `hasattr(v, '__len__')`: true for strings, tuples and `Nada`
(whose `__len__` returns 0); false for generators. -/
def PyVal.hasLenAttr : PyVal → Bool
  | .str _ => true
  | .tuple _ => true
  | .nada => true
  | _ => false

/-- Python `len(v)` for the values that define `__len__`
(`Nada.__len__` returns 0). -/
def PyVal.lenOf : PyVal → Nat
  | .str s => s.length
  | .tuple xs => xs.length
  | _ => 0

/-- The number of elements produced by exhausting `iter(v)`, used by
`Nada.__setitem__` when the assigned iterable lacks `__len__`. -/
def PyVal.iterCount : PyVal → Nat
  | .str s => s.length
  | .tuple xs => xs.length
  | .gen xs => xs.length
  | _ => 0

namespace Nada

/-- Python `Nada.__iter__`: `return iter(())` — each call yields a fresh empty
iterator, modelled as the empty list of elements. -/
def iter : List PyVal := []

/-- Python `Nada.__bool__`: `return False`. -/
def toBool : Bool := false

/-- Python `Nada.__len__`: `return 0`. -/
def len : Nat := 0

/-- Python `Nada.__add__`: `return Nada()`. -/
def add (_right : PyVal) : PyVal := .nada

/-- Python `Nada.__radd__`: `return Nada()`. -/
def radd (_left : PyVal) : PyVal := .nada

/-- Python `Nada.__mul__`: `return Nada()`. -/
def mul (_right : PyVal) : PyVal := .nada

/-- Python `Nada.__rmul__`: `return Nada()`. -/
def rmul (_left : PyVal) : PyVal := .nada

/-- Python `Nada.__eq__`: `return Nada()`. -/
def eq (_right : PyVal) : PyVal := .nada

/-- Python `Nada.__ne__`: `return Nada()`. -/
def ne (_right : PyVal) : PyVal := .nada

/-- Python `Nada.__ge__`: `return Nada()`. -/
def ge (_right : PyVal) : PyVal := .nada

/-- Python `Nada.__gt__`: `return Nada()`. -/
def gt (_right : PyVal) : PyVal := .nada

/-- Python `Nada.__le__`: `return Nada()`. -/
def le (_right : PyVal) : PyVal := .nada

/-- Python `Nada.__lt__`: `return Nada()`. -/
def lt (_right : PyVal) : PyVal := .nada

/-- Python `Nada.__delitem__`: `return Nada()`. -/
def delitem (_index : Index) : PyVal := .nada

/-- Python `Nada.__getitem__`: `return Nada()`. -/
def getitem (_index : Index) : PyVal := .nada

/-- Python `Nada.__call__(*args, **kwargs)`: `return Nada()`. -/
def call (_args : List PyVal) (_kwargs : List (String × PyVal)) : PyVal :=
  .nada

/-- Python `Nada.__getattr__(name)`: returns the local function `method`, which
ignores all positional and keyword arguments and returns `Nada()`.  The
returned callable is modelled directly as a function of the arguments. -/
def getattr (_name : String) : List PyVal → List (String × PyVal) → PyVal :=
  fun _ _ => .nada

/-- Python `Nada.nada_get(alt)`: `return alt`. -/
def nada_get {T : Type} (alt : T) : T := alt

/-- Python `Nada.__setitem__(index, items)`, translated clause by clause:
items identical to the singleton return immediately; otherwise a slice
index with an iterable value and a non-`None` stop computes
`size_slice = (stop - start + 1) // step` (Python floor division, hence
`Int.fdiv`; a slice step of 0 makes this division raise
`ZeroDivisionError`), counts the assigned iterable via `len` when it has
`__len__` and by exhausting it otherwise, and raises `ValueError` on a
size mismatch; a non-iterable value assigned to a slice raises
`TypeError`; everything else is a no-op. -/
def setitem (index : Index) (items : PyVal) : Except PyErr Unit :=
  if items.isNada then .ok ()
  else
    match index with
    | .slice start0 stop0 step0 =>
      if items.isIterable then
        let start := start0.getD 0
        let step := step0.getD 1
        match stop0 with
        | Option.none => .ok ()
        | Option.some stop =>
          if step = 0 then .error .zeroDivisionError
          else
            let size_slice := (stop - start + 1).fdiv step
            let len_iter : Int :=
              if items.hasLenAttr then items.lenOf else items.iterCount
            if size_slice = len_iter then .ok ()
            else .error (.valueError
              ("attempt to assign sequence of size " ++ toString len_iter ++
                " to extended slice of size " ++ toString size_slice))
      else .error (.typeError "must assign iterable to extended slice")
    | .idx _ => .ok ()

end Nada

/-- Python `bool(v)`: Python truthiness on the universe.  For `Nada` this
dispatches to `Nada.__bool__`. -/
def PyVal.truthy : PyVal → Bool
  | .none => false
  | .bool b => b
  | .int n => n != 0
  | .str s => s.length != 0
  | .tuple xs => !xs.isEmpty
  | .gen _ => true
  | .nada => Nada.toBool

/-- Discriminator for boolean values of the universe, used to state that
an operation's result is not a Python `bool` at all. -/
def PyVal.isBool : PyVal → Bool
  | .bool _ => true
  | _ => false

/-- Discriminator for `ValueError`, used to state that a raised error is
not a size-mismatch `ValueError`. -/
def PyErr.isValueError : PyErr → Bool
  | .valueError _ => true
  | _ => false

/-- Python binary `+` dispatch restricted to this universe: the left
operand's `__add__` is tried first (`Nada.__add__` absorbs any right
operand); the built-in types return `NotImplemented` for a `Nada` right
operand, deferring to `Nada.__radd__`; otherwise the built-in addition
applies where defined, and `Option.none` stands for a `TypeError`. -/
def pyAdd : PyVal → PyVal → Option PyVal
  | .nada, r => Option.some (Nada.add r)
  | l, .nada => Option.some (Nada.radd l)
  | .int a, .int b => Option.some (.int (a + b))
  | .str a, .str b => Option.some (.str (a ++ b))
  | .tuple a, .tuple b => Option.some (.tuple (a ++ b))
  | _, _ => Option.none

/-- Python binary `*` dispatch restricted to this universe, analogous to
`pyAdd`: `Nada.__mul__` and `Nada.__rmul__` absorb, integer
multiplication applies where defined. -/
def pyMul : PyVal → PyVal → Option PyVal
  | .nada, r => Option.some (Nada.mul r)
  | l, .nada => Option.some (Nada.rmul l)
  | .int a, .int b => Option.some (.int (a * b))
  | _, _ => Option.none

/-- The class-level state of `Nada`: `_instance` (initially `None`) and
the id allocator standing for `super().__new__(cls)`. -/
structure NadaState where
  inst : Option Nat
  next : Nat
deriving DecidableEq, Repr

/-- The state of `Nada` at interpreter start-up: `_instance = None`. -/
def NadaState.initial : NadaState := ⟨Option.none, 0⟩

/-- Python `Nada.__new__`: if `cls._instance is None`, allocate the instance and
store it; return `cls._instance`.  The returned `Nat` is the object id of
the constructed instance. -/
def Nada.new (cls : NadaState) : Nat × NadaState :=
  match cls.inst with
  | Option.some i => (i, cls)
  | Option.none => (cls.next, ⟨Option.some cls.next, cls.next + 1⟩)

/-- The class-level state of `Sentinel`: the `_flavors` registry (an
association of flavors to object ids, insertion-ordered like a Python
`dict`) and the id allocator standing for `super().__new__(cls)`. -/
structure SentinelState (H : Type) where
  flavors : List (H × Nat)
  next : Nat
deriving Repr

/-- The registry at interpreter start-up: `_flavors = {}`. -/
def SentinelState.initial (H : Type) : SentinelState H := ⟨[], 0⟩

/-- Python `flavor in cls._flavors` / `cls._flavors[flavor]`: first-match lookup
of a flavor in the registry. -/
def lookupFlavor {H : Type} [DecidableEq H] : List (H × Nat) → H → Option Nat
  | [], _ => Option.none
  | p :: ps, k => if p.1 = k then Option.some p.2 else lookupFlavor ps k

/-- Python `Sentinel.__new__`: if the flavor is not registered, allocate a new
instance and insert it (the double-checked locking collapses to this in
the sequential model); return `cls._flavors[flavor]`.  The returned `Nat`
is the object id of the returned sentinel. -/
def Sentinel.new {H : Type} [DecidableEq H] (cls : SentinelState H)
    (flavor : H) : Nat × SentinelState H :=
  match lookupFlavor cls.flavors flavor with
  | Option.some obj => (obj, cls)
  | Option.none =>
      (cls.next, ⟨cls.flavors ++ [(flavor, cls.next)], cls.next + 1⟩)

/-- Python `Sentinel` defines no `__eq__`, so `==` on two sentinels falls back to
`object.__eq__`, which is reference identity on the object ids. -/
def Sentinel.beq (a b : Nat) : Bool := a == b

/-- Well-formedness of the sentinel registry: every registered id was
allocated (is below the allocator), and distinct flavors hold distinct
ids. -/
def SentinelState.WF {H : Type} (s : SentinelState H) : Prop :=
  (∀ p ∈ s.flavors, p.2 < s.next) ∧
    (∀ p ∈ s.flavors, ∀ q ∈ s.flavors, p.2 = q.2 → p.1 = q.1)

/-! ### Supporting lemmas about the sentinel registry -/

lemma lookupFlavor_mem {H : Type} [DecidableEq H] {l : List (H × Nat)}
    {k : H} {i : Nat} (h : lookupFlavor l k = Option.some i) : (k, i) ∈ l := by
  induction l with
  | nil => simp [lookupFlavor] at h
  | cons p ps ih =>
    rw [lookupFlavor] at h
    by_cases hk : p.1 = k
    · rw [if_pos hk] at h
      cases Option.some.inj h
      subst hk
      exact List.Mem.head ps
    · rw [if_neg hk] at h
      exact List.mem_cons_of_mem _ (ih h)

lemma lookupFlavor_append {H : Type} [DecidableEq H] (l : List (H × Nat))
    (k k' : H) (n : Nat) :
    lookupFlavor (l ++ [(k', n)]) k =
      match lookupFlavor l k with
      | Option.some i => Option.some i
      | Option.none => if k' = k then Option.some n else Option.none := by
  induction l with
  | nil => simp [lookupFlavor]
  | cons p ps ih =>
    rw [List.cons_append, lookupFlavor, lookupFlavor]
    by_cases hk : p.1 = k
    · rw [if_pos hk, if_pos hk]
    · rw [if_neg hk, if_neg hk, ih]

lemma SentinelState.initial_WF (H : Type) : (SentinelState.initial H).WF :=
  ⟨fun p hp => absurd hp (List.not_mem_nil p),
   fun p hp => absurd hp (List.not_mem_nil p)⟩

lemma Sentinel.new_WF {H : Type} [DecidableEq H] {s : SentinelState H}
    (hWF : s.WF) (k : H) : (Sentinel.new s k).2.WF := by
  rw [Sentinel.new]
  cases h : lookupFlavor s.flavors k with
  | some obj => exact hWF
  | none =>
    constructor
    · intro p hp
      rcases List.mem_append.mp hp with hp | hp
      · exact Nat.lt_succ_of_lt (hWF.1 p hp)
      · rcases List.mem_singleton.mp hp with rfl
        exact Nat.lt_succ_self _
    · intro p hp q hq hpq
      rcases List.mem_append.mp hp with hp | hp <;>
        rcases List.mem_append.mp hq with hq | hq
      · exact hWF.2 p hp q hq hpq
      · rcases List.mem_singleton.mp hq with rfl
        exact absurd hpq (Nat.ne_of_lt (hWF.1 p hp))
      · rcases List.mem_singleton.mp hp with rfl
        exact absurd hpq.symm (Nat.ne_of_lt (hWF.1 q hq))
      · rcases List.mem_singleton.mp hp with rfl
        rcases List.mem_singleton.mp hq with rfl
        rfl


/-! ### Claim theorems -/

/-- C2: every evaluation of `Nada()` yields the same object.  From any
class-level state, `Nada.__new__` run a second time returns exactly the
object id the first run returned and leaves the state unchanged — so the
constructions at any two call sites, from the second on, all return the
object constructed first. -/
theorem nada_construction_identical (s : NadaState) :
    Nada.new (Nada.new s).2 = ((Nada.new s).1, (Nada.new s).2) := by
  cases h : s.inst <;> simp [Nada.new, h]

/-- C3 counterexample: the claim says `Nada() == Nada()` is the boolean
`False`.  In the code `Nada.__eq__` returns `Nada()` itself — not a
boolean at all — and `Nada.__ne__` likewise. -/
theorem nada_eq_returns_singleton_not_false :
    Nada.eq PyVal.nada = PyVal.nada ∧
    (Nada.eq PyVal.nada).isBool = false ∧
    (Nada.ne PyVal.nada).isBool = false :=
  ⟨rfl, rfl, rfl⟩

/-- C3 amended: every comparison on the `Nada` singleton (`==`, `!=`,
`<`, `<=`, `>`, `>=`), against any operand including the singleton
itself, returns the `Nada` singleton itself (the spec's variant B); the
result is falsy, so in boolean context `Nada() == Nada()` and
`Nada() != Nada()` are both false. -/
theorem nada_comparisons_absorbing (v : PyVal) :
    Nada.eq v = PyVal.nada ∧ Nada.ne v = PyVal.nada ∧
    Nada.ge v = PyVal.nada ∧ Nada.gt v = PyVal.nada ∧
    Nada.le v = PyVal.nada ∧ Nada.lt v = PyVal.nada ∧
    PyVal.truthy (Nada.eq v) = false ∧ PyVal.truthy (Nada.ne v) = false :=
  ⟨rfl, rfl, rfl, rfl, rfl, rfl, rfl, rfl⟩

/-- C6: any attribute name not otherwise defined resolves through
`Nada.__getattr__` to a callable that returns the singleton on any
positional and keyword arguments, and calling the singleton itself
returns the singleton.  The chain `Nada().foo(1).bar(x=2)` therefore
collapses: `foo` yields the singleton again, so `bar` resolves through
`Nada.__getattr__` once more and yields the singleton. -/
theorem nada_getattr_call_absorbing (name : String) (args : List PyVal)
    (kwargs : List (String × PyVal)) :
    Nada.getattr name args kwargs = PyVal.nada ∧
    Nada.call args kwargs = PyVal.nada ∧
    Nada.getattr "foo" [PyVal.int 1] [] = PyVal.nada ∧
    Nada.getattr "bar" [] [("x", PyVal.int 2)] = PyVal.nada :=
  ⟨rfl, rfl, rfl, rfl⟩

/-- C7: `+` and `*` involving the `Nada` singleton on either side are
absorbing: the singleton's `__add__`/`__mul__` ignore the right operand,
its `__radd__`/`__rmul__` ignore the left operand, and under Python's
binary-operator dispatch both `Nada() + v` / `Nada() * v` and
`v + Nada()` / `v * Nada()` evaluate to the singleton for every operand
`v` of the universe. -/
theorem nada_arithmetic_absorbing (v : PyVal) :
    Nada.add v = PyVal.nada ∧ Nada.radd v = PyVal.nada ∧
    Nada.mul v = PyVal.nada ∧ Nada.rmul v = PyVal.nada ∧
    pyAdd PyVal.nada v = Option.some PyVal.nada ∧
    pyAdd v PyVal.nada = Option.some PyVal.nada ∧
    pyMul PyVal.nada v = Option.some PyVal.nada ∧
    pyMul v PyVal.nada = Option.some PyVal.nada := by
  cases v <;> exact ⟨rfl, rfl, rfl, rfl, rfl, rfl, rfl, rfl⟩

/-- C8: the `Nada` singleton behaves as an empty container:
`bool(Nada())` is `False` (via `Nada.__bool__`), `len(Nada())` is 0, and
`Nada.__iter__` produces an iterator over no elements — modelled as a
pure value, so every (re)start of iteration yields the same empty
sequence. -/
theorem nada_empty_container :
    PyVal.truthy PyVal.nada = false ∧ Nada.toBool = false ∧
    Nada.len = 0 ∧ Nada.iter = ([] : List PyVal) :=
  ⟨rfl, rfl, rfl, rfl⟩

/-- C9: `Nada().nada_get(v)` returns exactly the argument `v`, for a
value of any type — in particular `nada_get(42)` is `42` and
`nada_get(Nada())` is the singleton — while the chainable operations
(call, attribute access, indexing, arithmetic, comparison) all return
the singleton, making `nada_get` the sole exit from a chain. -/
theorem nada_get_returns_argument :
    (∀ (T : Type) (v : T), Nada.nada_get v = v) ∧
    Nada.nada_get (PyVal.int 42) = PyVal.int 42 ∧
    Nada.nada_get PyVal.nada = PyVal.nada ∧
    (∀ (args : List PyVal) (kwargs : List (String × PyVal)) (name : String)
      (i : Index) (v : PyVal),
      Nada.call args kwargs = PyVal.nada ∧
      Nada.getattr name args kwargs = PyVal.nada ∧
      Nada.getitem i = PyVal.nada ∧ Nada.add v = PyVal.nada ∧
      Nada.mul v = PyVal.nada ∧ Nada.eq v = PyVal.nada) :=
  ⟨fun _ _ => rfl, rfl, rfl, fun _ _ _ _ _ => ⟨rfl, rfl, rfl, rfl, rfl, rfl⟩⟩

/-- C10: when the assigned value is the `Nada` singleton itself,
`Nada.__setitem__` returns at once for every index, bypassing all
slice-arity validation — in particular `Nada()[0:6:2] = Nada()` succeeds
even though the very same extended slice rejects an assigned iterable
whose length differs from the computed slice size 3. -/
theorem nada_setitem_nada_value_bypasses_validation (index : Index) :
    Nada.setitem index PyVal.nada = Except.ok () ∧
    Nada.setitem (Index.slice (Option.some 0) (Option.some 6)
      (Option.some 2)) PyVal.nada = Except.ok () ∧
    Nada.setitem (Index.slice (Option.some 0) (Option.some 6)
      (Option.some 2)) (PyVal.tuple []) =
      Except.error (PyErr.valueError
        "attempt to assign sequence of size 0 to extended slice of size 3") :=
  ⟨rfl, rfl, rfl⟩

/-- C4: evaluation of the code at the failing input.  Assigning the
9-element tuple `(1,...,9)` to the unit-step slice `Nada()[11:20]`
raises `ValueError` — the code computes `(20 - 11 + 1) // 1 = 10` and
validates the arity of a step-1 slice, although the spec (and the
repository's own test `test_get_set`, which asserts this very statement
does not raise) exempts unit-step slices from validation. -/
theorem nada_setitem_unit_step_slice_raises :
    Nada.setitem (Index.slice (Option.some 11) (Option.some 20) Option.none)
      (PyVal.tuple [PyVal.int 1, PyVal.int 2, PyVal.int 3, PyVal.int 4,
        PyVal.int 5, PyVal.int 6, PyVal.int 7, PyVal.int 8, PyVal.int 9]) =
      Except.error (PyErr.valueError
        "attempt to assign sequence of size 9 to extended slice of size 10") :=
  rfl

/-- C5 counterexample: the claim says only (a) sentinel construction with
an unhashable flavor and (b) mismatched extended-slice assignment can
fail.  But assigning the non-iterable `5` to the slice `Nada()[0:6:2]`
raises `TypeError('must assign iterable to extended slice')` — a third
failure, raised by `Nada.__setitem__` and not a size-mismatch
`ValueError`. -/
theorem nada_setitem_non_iterable_type_error :
    Nada.setitem (Index.slice (Option.some 0) (Option.some 6)
      (Option.some 2)) (PyVal.int 5) =
      Except.error (PyErr.typeError "must assign iterable to extended slice") ∧
    (PyErr.typeError "must assign iterable to extended slice").isValueError =
      false :=
  ⟨rfl, rfl⟩


/-- C1: from any well-formed registry state, constructing `Sentinel(k1)`
and then `Sentinel(k2)` returns the same object id when `k1 = k2`, and
distinct object ids that never compare equal (reference-identity `==`)
when `k1 ≠ k2`. -/
theorem sentinel_flavor_identity {H : Type} [DecidableEq H]
    (s : SentinelState H) (hWF : s.WF) (k1 k2 : H) :
    (k1 = k2 →
      (Sentinel.new s k1).1 = (Sentinel.new (Sentinel.new s k1).2 k2).1) ∧
    (k1 ≠ k2 →
      (Sentinel.new s k1).1 ≠ (Sentinel.new (Sentinel.new s k1).2 k2).1 ∧
      Sentinel.beq (Sentinel.new s k1).1
        (Sentinel.new (Sentinel.new s k1).2 k2).1 = false) := by
  have key : (k1 = k2 →
      (Sentinel.new s k1).1 = (Sentinel.new (Sentinel.new s k1).2 k2).1) ∧
      (k1 ≠ k2 →
        (Sentinel.new s k1).1 ≠ (Sentinel.new (Sentinel.new s k1).2 k2).1) := by
    cases h1 : lookupFlavor s.flavors k1 with
    | some i1 =>
      have hmem1 : (k1, i1) ∈ s.flavors := lookupFlavor_mem h1
      rw [Sentinel.new, h1]
      constructor
      · rintro rfl
        rw [Sentinel.new, h1]
      · intro hne
        cases h2 : lookupFlavor s.flavors k2 with
        | some i2 =>
          have hmem2 : (k2, i2) ∈ s.flavors := lookupFlavor_mem h2
          rw [Sentinel.new, h2]
          intro he
          exact hne (hWF.2 (k1, i1) hmem1 (k2, i2) hmem2 he)
        | none =>
          rw [Sentinel.new, h2]
          exact Nat.ne_of_lt (hWF.1 (k1, i1) hmem1)
    | none =>
      rw [Sentinel.new, h1]
      constructor
      · rintro rfl
        rw [Sentinel.new]
        rw [show lookupFlavor (s.flavors ++ [(k1, s.next)]) k1 =
            Option.some s.next by rw [lookupFlavor_append, h1, if_pos rfl]]
      · intro hne
        cases h2 : lookupFlavor s.flavors k2 with
        | some i2 =>
          have hmem2 : (k2, i2) ∈ s.flavors := lookupFlavor_mem h2
          rw [Sentinel.new]
          rw [show lookupFlavor (s.flavors ++ [(k1, s.next)]) k2 =
              Option.some i2 by rw [lookupFlavor_append, h2]]
          exact (Nat.ne_of_lt (hWF.1 (k2, i2) hmem2)).symm
        | none =>
          rw [Sentinel.new]
          rw [show lookupFlavor (s.flavors ++ [(k1, s.next)]) k2 =
              Option.none by rw [lookupFlavor_append, h2, if_neg hne]]
          exact Nat.ne_of_lt (Nat.lt_succ_self _)
  refine ⟨key.1, fun hne => ⟨key.2 hne, ?_⟩⟩
  exact beq_eq_false_iff_ne.mpr (key.2 hne)

/-- C1 witness: in the empty registry, `Sentinel(2)` followed by
`Sentinel(3)` yields two distinct, never-equal sentinels. -/
theorem sentinel_flavor_identity_witness :
    (Sentinel.new (SentinelState.initial Nat) 2).1 ≠
      (Sentinel.new (Sentinel.new (SentinelState.initial Nat) 2).2 3).1 ∧
    Sentinel.beq (Sentinel.new (SentinelState.initial Nat) 2).1
      (Sentinel.new (Sentinel.new (SentinelState.initial Nat) 2).2 3).1 =
      false :=
  (sentinel_flavor_identity (SentinelState.initial Nat)
    (SentinelState.initial_WF Nat) 2 3).2 (by decide)

/-- C5 amended: besides (a) sentinel construction with an unhashable
flavor, the only failing operation is `Nada.__setitem__`, and every
error it raises arises from a slice index with a non-singleton assigned
value: either the `TypeError` for a non-iterable assigned value, the
`ZeroDivisionError` for a slice step of 0, or the size-mismatch
`ValueError` naming the assigned length and the computed slice size
(which the code applies to every slice with a non-`None` stop, unit-step
slices included); all remaining operations are total. -/
theorem nada_failure_modes (index : Index) (items : PyVal) (e : PyErr)
    (h : Nada.setitem index items = Except.error e) :
    items.isNada = false ∧
    (∃ start stop step, index = Index.slice start stop step) ∧
    ((items.isIterable = false ∧
        e = PyErr.typeError "must assign iterable to extended slice") ∨
      e = PyErr.zeroDivisionError ∨
      (∃ li sz : Int, li ≠ sz ∧
        e = PyErr.valueError ("attempt to assign sequence of size " ++
          toString li ++ " to extended slice of size " ++ toString sz))) := by
  by_cases hn : items.isNada
  · simp [Nada.setitem, hn] at h
  · cases index with
    | idx i => simp [Nada.setitem, hn] at h
    | slice a b c =>
      by_cases hit : items.isIterable
      · cases b with
        | none => simp [Nada.setitem, hn, hit] at h
        | some stop =>
          by_cases hst : (c.getD 1) = 0
          · simp [Nada.setitem, hn, hit, hst] at h
            exact ⟨Bool.eq_false_iff.mpr hn, ⟨a, Option.some stop, c, rfl⟩,
              Or.inr (Or.inl h.symm)⟩
          · by_cases hmatch : (stop - a.getD 0 + 1).fdiv (c.getD 1) =
                (if items.hasLenAttr then (items.lenOf : Int)
                  else (items.iterCount : Int))
            · simp [Nada.setitem, hn, hit, hst, hmatch] at h
            · simp [Nada.setitem, hn, hit, hst, hmatch] at h
              exact ⟨Bool.eq_false_iff.mpr hn, ⟨a, Option.some stop, c, rfl⟩,
                Or.inr (Or.inr ⟨_, _, fun he => hmatch he.symm, h.symm⟩)⟩
      · simp [Nada.setitem, hn, hit] at h
        exact ⟨Bool.eq_false_iff.mpr hn, ⟨a, b, c, rfl⟩,
          Or.inl ⟨Bool.eq_false_iff.mpr hit, h.symm⟩⟩

/-- C5 amended witness: assigning the length-1 generator to the slice
`Nada()[0:4:2]` raises, and the raised error is the size-mismatch
`ValueError` for lengths 1 and 2. -/
theorem nada_failure_modes_witness :
    (PyVal.gen [PyVal.int 1]).isNada = false ∧
    (∃ start stop step,
      Index.slice (Option.some 0) (Option.some 4) (Option.some 2) =
        Index.slice start stop step) ∧
    (((PyVal.gen [PyVal.int 1]).isIterable = false ∧
        PyErr.valueError
            "attempt to assign sequence of size 1 to extended slice of size 2" =
          PyErr.typeError "must assign iterable to extended slice") ∨
      PyErr.valueError
          "attempt to assign sequence of size 1 to extended slice of size 2" =
        PyErr.zeroDivisionError ∨
      (∃ li sz : Int, li ≠ sz ∧
        PyErr.valueError
            "attempt to assign sequence of size 1 to extended slice of size 2" =
          PyErr.valueError ("attempt to assign sequence of size " ++
            toString li ++ " to extended slice of size " ++ toString sz))) :=
  nada_failure_modes
    (Index.slice (Option.some 0) (Option.some 4) (Option.some 2))
    (PyVal.gen [PyVal.int 1])
    (PyErr.valueError
      "attempt to assign sequence of size 1 to extended slice of size 2")
    rfl

end PythonicFP
